import Mathlib

/-!
# termpdf — verification of the navigation engine

Shallow embedding of `src/main.rs`: the `Pdf` / `FileList` / `Page` data
model, the key-to-command mapping, the `browser` command loop (with its
`double_gg` double-tap flag), and the `runmulti` coordinator loop.

External collaborators are modelled at their interface boundary:
* the pdfium rasterizer is an oracle `Fs : String → Option Doc` mapping a
  path to the document it currently holds (`none` when
  `load_pdf_from_file` fails); a `Doc` is the list of its rendered pages;
* Rust panics (`unwrap` / `expect` on a failing operation) are modelled as
  an explicit `panic` outcome;
* terminal output is modelled by the pure sizing decision `SizeChoice`
  that `Page::display` makes before emitting the escape sequence.
-/

namespace Termpdf

/-- One rendered page: encoded image bytes and pixel `(width, height)`.
Mirrors `struct Page { data: Vec<u8>, size: (u32, u32) }`. -/
structure Page where
  data : List Nat
  size : Nat × Nat
deriving Repr, DecidableEq

/-- An open document session. Mirrors
`struct Pdf { file, page, current_page, length, text }`. -/
structure Pdf where
  file : String
  page : Page
  current_page : Nat
  length : Nat
  text : List String
deriving Repr, DecidableEq

/-- The ordered document list with cursor. Mirrors
`struct FileList { files: Vec<String>, current_file: usize }`. -/
structure FileList where
  files : List String
  current_file : Nat
deriving Repr, DecidableEq

/-- `FileList::current`: `self.files[current].clone()`. Rust indexing
panics out of range; under the invariant `current_file < files.length`
(always maintained by `next`/`prev`) the default is never taken. -/
def FileList.current (fl : FileList) : String :=
  fl.files.getD fl.current_file ""

/-- `FileList::next`: step forward unless already at the last index. -/
def FileList.next (fl : FileList) : FileList :=
  if fl.current_file ≠ fl.files.length - 1 then
    { fl with current_file := fl.current_file + 1 }
  else fl

/-- `FileList::prev`: step back unless already at index 0. -/
def FileList.prev (fl : FileList) : FileList :=
  if fl.current_file ≠ 0 then
    { fl with current_file := fl.current_file - 1 }
  else fl

/-- The command set. Mirrors `enum Msg` (the commented-out `Rotate`
variant is omitted exactly as in the source). -/
inductive Msg
  | NextPage
  | PreviousPage
  | NextDocument
  | PreviousDocument
  | Refresh
  | Quit
  | Open
  | None
  | LastPage
  | FirstPage
deriving Repr, DecidableEq

/-- A document as the rasterizer sees it at load time: the list of its
rendered pages (so `pages.length` is the page count reported by
`document.pages().len()` and `pages[p]?` is the render of page `p`). -/
structure Doc where
  pages : List Page
deriving Repr, DecidableEq

/-- The filesystem / pdfium oracle: what `load_pdf_from_file(path)`
currently yields, `none` meaning the load fails. -/
abbrev Fs := String → Option Doc

/-- The start-page computation at the top of `Pdf::new`:
`match current_page { None => 0, Some(v) => v }`. -/
def startPage : Option Nat → Nat
  | Option.none => 0
  | Option.some v => v

/-- Failure modes of `Pdf::new`: `loadErr` is the `?`-propagated error
when the file cannot be loaded; `pagePanic` is the panic from
`page.unwrap()` when the requested page index is out of range (note:
a panic, not a returned `Err`). -/
inductive PdfErr
  | loadErr
  | pagePanic
deriving Repr, DecidableEq

/-- `Pdf::new(file, current_page)`: load the document, take its length,
render page `p` (no clamping — an out-of-range `p` panics via
`page.unwrap()`), and build the session. -/
def Pdf.new (env : Fs) (file : String) (current_page : Option Nat) :
    Except PdfErr Pdf :=
  match env file with
  | Option.none => .error .loadErr
  | Option.some d =>
      match d.pages[startPage current_page]? with
      | Option.none => .error .pagePanic
      | Option.some pg =>
          .ok { file := file, page := pg, current_page := startPage current_page,
                length := d.pages.length, text := [] }

/-- `Pdf::get_page(p)`: reload the document from `self.file` (`unwrap`
panics on load failure, modelled `none`), render page `p` (`unwrap`
panics out of range), then set `self.page` and `self.current_page`.
`length` is NOT updated, exactly as in the source. -/
def Pdf.get_page (env : Fs) (pdf : Pdf) (p : Nat) : Option Pdf :=
  match env pdf.file with
  | Option.none => Option.none
  | Option.some d =>
      match d.pages[p]? with
      | Option.none => Option.none
      | Option.some pg =>
          Option.some { pdf with page := pg, current_page := p }

/-- The sizing decision of `Page::display`: exactly one of height (in
terminal rows) or width (in terminal columns) is passed to the inline
image escape sequence. -/
inductive SizeChoice
  | byHeight (cells : Nat)
  | byWidth (cells : Nat)
deriving Repr, DecidableEq

/-- `Page::display(r)` reduced to its sizing decision, given the terminal
size `(cols, rows)`. The aspect flags use integer division exactly as the
source (`(w as i32 / h as i32) >= 1`); a zero divisor panics in Rust,
modelled as `none`. `r.is_some()` flips both flags (the disabled Rotate
path). The branch: portrait page AND landscape terminal ⇒ height
`rows - 2`; otherwise width `cols - 2`. -/
def Page.display (pg : Page) (cols rows : Nat) (r : Option Bool) :
    Option SizeChoice :=
  if pg.size.2 = 0 ∨ rows = 0 then Option.none
  else
    let pdf_aspect_ratio : Bool := decide (pg.size.1 / pg.size.2 ≥ 1)
    let term_aspect_ratio : Bool := decide (cols / rows ≥ 1)
    let pdf_aspect_ratio : Bool :=
      if r.isSome then !pdf_aspect_ratio else pdf_aspect_ratio
    let term_aspect_ratio : Bool :=
      if r.isSome then !term_aspect_ratio else term_aspect_ratio
    if (pdf_aspect_ratio == false) && (term_aspect_ratio == true) then
      Option.some (.byHeight (rows - 2))
    else
      Option.some (.byWidth (cols - 2))

/-- The `browser` loop's exit reasons. Mirrors
`enum Refersh { Oker, Done, Next, Previous }` (source spelling kept). -/
inductive Refersh
  | Oker
  | Done
  | Next
  | Previous
deriving Repr, DecidableEq

/-- Outcome of handling one command inside `browser`'s `for c in rx`
loop: return from `browser` with a `Refersh` value, continue the loop
with updated session and `double_gg` flag, or panic. -/
inductive StepRes
  | exitLoop (r : Refersh) (pdf : Pdf)
  | cont (pdf : Pdf) (double_gg : Bool)
  | panic
deriving Repr, DecidableEq

/-- One iteration of the `match c` in `browser`. Faithful points:
* `FirstPage` with the flag armed sets `current_page := 0` then calls
  `get_page(0)` (which panics on render failure); with the flag unarmed
  it only arms the flag — the session is untouched;
* only `NextPage` and `PreviousPage` assign `double_gg = false`;
  `LastPage`, `Open` and `None` leave the flag as it was;
* `NextPage` guards on `current_page != length - 1`, `PreviousPage` on
  `current_page != 0`;
* `Quit`/`Refresh`/`NextDocument`/`PreviousDocument` return from
  `browser` with `Done`/`Oker`/`Next`/`Previous`;
* `Open` spawns an external viewer — no navigation state changes. -/
def browserStep (env : Fs) (pdf : Pdf) (double_gg : Bool) : Msg → StepRes
  | .FirstPage =>
      match double_gg with
      | true =>
          match Pdf.get_page env { pdf with current_page := 0 } 0 with
          | Option.some pdf2 => .cont pdf2 true
          | Option.none => .panic
      | false => .cont pdf true
  | .LastPage =>
      match Pdf.get_page env { pdf with current_page := pdf.length - 1 }
          (pdf.length - 1) with
      | Option.some pdf2 => .cont pdf2 double_gg
      | Option.none => .panic
  | .None => .cont pdf double_gg
  | .Quit => .exitLoop .Done pdf
  | .Open => .cont pdf double_gg
  | .Refresh => .exitLoop .Oker pdf
  | .NextPage =>
      if pdf.current_page ≠ pdf.length - 1 then
        match Pdf.get_page env { pdf with current_page := pdf.current_page + 1 }
            (pdf.current_page + 1) with
        | Option.some pdf2 => .cont pdf2 false
        | Option.none => .panic
      else .cont pdf false
  | .PreviousPage =>
      if pdf.current_page ≠ 0 then
        match Pdf.get_page env { pdf with current_page := pdf.current_page - 1 }
            (pdf.current_page - 1) with
        | Option.some pdf2 => .cont pdf2 false
        | Option.none => .panic
      else .cont pdf false
  | .NextDocument => .exitLoop .Next pdf
  | .PreviousDocument => .exitLoop .Previous pdf

/-- Result of one `browser` call on a finite command stream: the returned
`Refersh`, the session as `browser` left it, and the commands not yet
consumed; or a panic. Exhaustion of the stream models the channel
closing, where the `for` loop ends and `browser` returns `Ok(Done)`. -/
inductive BrowserRes
  | ret (r : Refersh) (pdf : Pdf) (rest : List Msg)
  | panic
deriving Repr, DecidableEq

/-- The `for c in rx` loop of `browser`, threading `double_gg`. -/
def browserLoop (env : Fs) : Pdf → Bool → List Msg → BrowserRes
  | pdf, _, [] => .ret .Done pdf []
  | pdf, dg, m :: ms =>
      match browserStep env pdf dg m with
      | .exitLoop r pdf2 => .ret r pdf2 ms
      | .cont pdf2 dg2 => browserLoop env pdf2 dg2 ms
      | .panic => .panic

/-- `browser(pdf, rx)`: displays the current page (no state change), then
runs the loop with `double_gg` initialised to `false`. -/
def browser (env : Fs) (pdf : Pdf) (msgs : List Msg) : BrowserRes :=
  browserLoop env pdf false msgs

/-- Process-level outcome of `runmulti` as observed by `main`:
`ok pdf` — `runmulti` returned `Ok(())` with final session `pdf`, having
printed `pdf.file`; `main` then exits with code 0. `err` — `runmulti`
bailed with `Err`, `main` exits with code 1. `panic` — an `expect` or
`unwrap` fired; the process aborts with Rust's panic exit status. -/
inductive RunRes
  | ok (pdf : Pdf)
  | err
  | panic
deriving Repr, DecidableEq

/-- What `runmulti` printed to stdout on successful return: the `file`
field of the session current when the loop ended. -/
def RunRes.printed : RunRes → Option String
  | .ok pdf => Option.some pdf.file
  | _ => Option.none

/-- The process exit code `main` produces from `runmulti`'s result
(Rust's default panic exit status is 101). -/
def RunRes.exitCode : RunRes → Nat
  | .ok _ => 0
  | .err => 1
  | .panic => 101

/-- The `loop` of `runmulti` with the `browser` loop inlined: `file` is
the startup path captured before the loop (`let file = files.current()`)
and used — unchanged — by the `Refersh::Oker` (refresh) arm; each return
from `browser` re-enters it with `double_gg = false`. The `Next`/
`Previous` arms move the cursor, then re-open the (new) current file at
page 0 with `.expect("Couldn't refresh file")` (panic on failure); the
`Oker` arm re-opens the STARTUP path at the current session's page, with
the same `expect`. `Done` prints `pdf.file` and returns `Ok`. -/
def runmultiGo (env : Fs) (file : String) :
    FileList → Pdf → Bool → List Msg → RunRes
  | _, pdf, _, [] => .ok pdf
  | files, pdf, dg, m :: ms =>
      match browserStep env pdf dg m with
      | .panic => .panic
      | .cont pdf2 dg2 => runmultiGo env file files pdf2 dg2 ms
      | .exitLoop .Done pdf2 => .ok pdf2
      | .exitLoop .Oker pdf2 =>
          match Pdf.new env file (Option.some pdf2.current_page) with
          | .ok pdf3 => runmultiGo env file files pdf3 false ms
          | .error _ => .panic
      | .exitLoop .Next _pdf2 =>
          match Pdf.new env (files.next.current) Option.none with
          | .ok pdf3 => runmultiGo env file files.next pdf3 false ms
          | .error _ => .panic
      | .exitLoop .Previous _pdf2 =>
          match Pdf.new env (files.prev.current) Option.none with
          | .ok pdf3 => runmultiGo env file files.prev pdf3 false ms
          | .error _ => .panic

/-- `runmulti(files)`: open the first current file (`Err` is caught by
the `match` and turned into `bail!` — but the out-of-range-page unwrap
inside `Pdf::new` is a panic that escapes the `match`), then run the
loop. -/
def runmulti (env : Fs) (files : FileList) (msgs : List Msg) : RunRes :=
  match Pdf.new env files.current Option.none with
  | .error .loadErr => .err
  | .error .pagePanic => .panic
  | .ok pdf => runmultiGo env files.current files pdf false msgs

/-- External events feeding the two producer threads: a keyboard-derived
command, or a debounced filesystem change on some path. -/
inductive Event
  | key (m : Msg)
  | fsChange (path : String)
deriving Repr, DecidableEq

/-- The producers' translation into channel messages. The watcher thread
was armed (once, at startup) on `watched`; a debounced change event on
that path sends `Msg::Refresh`, a change anywhere else is not observed
by the watcher at all. Keyboard commands pass through. -/
def watchEmit (watched : String) : Event → Option Msg
  | .key m => Option.some m
  | .fsChange p => if p = watched then Option.some Msg.Refresh else Option.none

/-- The ordered command stream the Coordinator consumes, given the
watched path fixed at startup. -/
def msgsOfEvents (watched : String) (evs : List Event) : List Msg :=
  evs.filterMap (watchEmit watched)

/-- Whole-system run: the watcher is armed on `files.current()` (the
`file2` clone taken before the loop) and never re-armed; `runmulti`
consumes the resulting stream. -/
def runSystem (env : Fs) (files : FileList) (evs : List Event) : RunRes :=
  runmulti env files (msgsOfEvents files.current evs)

/-! ## Concrete fixtures for witnesses and counterexamples -/

/-- A portrait page (100 × 200 px). -/
def pgP : Page := { data := [0], size := (100, 200) }

/-- Five-page document. -/
def docA : Doc := { pages := [pgP, pgP, pgP, pgP, pgP] }

/-- Three-page document. -/
def docB : Doc := { pages := [pgP, pgP, pgP] }

/-- Two-page document (a shortened re-save of `a.pdf`). -/
def docA2 : Doc := { pages := [pgP, pgP] }

/-- Filesystem with `a.pdf` (5 pages) and `b.pdf` (3 pages). -/
def env0 : Fs := fun s =>
  if s = "a.pdf" then Option.some docA
  else if s = "b.pdf" then Option.some docB else Option.none

/-- Filesystem after `a.pdf` was shortened to 2 pages. -/
def env2 : Fs := fun s =>
  if s = "a.pdf" then Option.some docA2 else Option.none

/-- Filesystem where every load fails (file deleted mid-session). -/
def envGone : Fs := fun _ => Option.none

/-- Session on `a.pdf` at page 0 (as opened by `Pdf::new` under `env0`). -/
def pdfA : Pdf :=
  { file := "a.pdf", page := pgP, current_page := 0, length := 5, text := [] }

/-- The same session navigated to page 3. -/
def pdfA3 : Pdf := { pdfA with current_page := 3 }

/-- A session that believes `a.pdf` has 5 pages and sits on page 4,
while on disk the file has been shortened (see `env2`). -/
def pdfStale : Pdf :=
  { file := "a.pdf", page := pgP, current_page := 4, length := 5, text := [] }

/-- Project the page index out of a `browser` result. -/
def browserFinalPage : BrowserRes → Option Nat
  | .ret _ pdf _ => Option.some pdf.current_page
  | .panic => Option.none

/-- Project the page index out of a run result. -/
def runFinalPage : RunRes → Option Nat
  | .ok pdf => Option.some pdf.current_page
  | _ => Option.none

/-- Project the current file out of a run result. -/
def runFinalFile : RunRes → Option String
  | .ok pdf => Option.some pdf.file
  | _ => Option.none

/-! ## Helper lemmas about `Pdf.get_page` and `Pdf.new` -/

theorem get_page_eq (env : Fs) (pdf : Pdf) (p : Nat) (d : Doc) (pg : Page)
    (hd : env pdf.file = Option.some d) (hpg : d.pages[p]? = Option.some pg) :
    Pdf.get_page env pdf p =
      Option.some { pdf with page := pg, current_page := p } := by
  simp only [Pdf.get_page, hd, hpg]

theorem get_page_none_load (env : Fs) (pdf : Pdf) (p : Nat)
    (hd : env pdf.file = Option.none) :
    Pdf.get_page env pdf p = Option.none := by
  simp only [Pdf.get_page, hd]

theorem get_page_none_range (env : Fs) (pdf : Pdf) (p : Nat) (d : Doc)
    (hd : env pdf.file = Option.some d) (hp : d.pages.length ≤ p) :
    Pdf.get_page env pdf p = Option.none := by
  simp only [Pdf.get_page, hd, List.getElem?_eq_none hp]

theorem get_page_some_spec (env : Fs) (pdf pdf2 : Pdf) (p : Nat)
    (h : Pdf.get_page env pdf p = Option.some pdf2) :
    pdf2.current_page = p ∧ pdf2.file = pdf.file ∧ pdf2.length = pdf.length := by
  unfold Pdf.get_page at h
  split at h
  · exact Option.noConfusion h
  · split at h
    · exact Option.noConfusion h
    · cases h
      exact ⟨rfl, rfl, rfl⟩

theorem new_eq (env : Fs) (file : String) (cp : Option Nat) (d : Doc) (pg : Page)
    (hd : env file = Option.some d)
    (hpg : d.pages[startPage cp]? = Option.some pg) :
    Pdf.new env file cp =
      Except.ok { file := file, page := pg, current_page := startPage cp,
                  length := d.pages.length, text := [] } := by
  simp only [Pdf.new, hd, hpg]

theorem new_err_load (env : Fs) (file : String) (cp : Option Nat)
    (hd : env file = Option.none) :
    Pdf.new env file cp = Except.error PdfErr.loadErr := by
  simp only [Pdf.new, hd]

theorem new_err_range (env : Fs) (file : String) (cp : Option Nat) (d : Doc)
    (hd : env file = Option.some d) (hp : d.pages.length ≤ startPage cp) :
    Pdf.new env file cp = Except.error PdfErr.pagePanic := by
  simp only [Pdf.new, hd, List.getElem?_eq_none hp]

theorem new_ok_spec (env : Fs) (file : String) (cp : Option Nat) (pdf3 : Pdf)
    (h : Pdf.new env file cp = Except.ok pdf3) :
    pdf3.file = file ∧ pdf3.current_page = startPage cp := by
  unfold Pdf.new at h
  split at h
  · exact Except.noConfusion h
  · split at h
    · exact Except.noConfusion h
    · cases h
      exact ⟨rfl, rfl⟩

/-! ## C1 — which commands reset the double-tap flag -/

/-- C1 counterexample: the claim says any command other than `FirstPage`
resets the pending double-tap flag, so in `FirstPage, LastPage,
FirstPage` the intervening `LastPage` should disarm the flag and the
final `FirstPage` should only re-arm it, leaving `current_page` at 4
(where `LastPage` put it). In the code `LastPage` does not touch
`double_gg`, so the final `FirstPage` jumps to page 0. -/
theorem C1_counterexample :
    browserFinalPage (browser env0 pdfA
      [Msg.FirstPage, Msg.LastPage, Msg.FirstPage, Msg.Quit]) = Option.some 0 ∧
    browserFinalPage (browser env0 pdfA
      [Msg.FirstPage, Msg.LastPage, Msg.FirstPage, Msg.Quit]) ≠ Option.some 4 := by
  decide

/-- C1 (amended): only `NextPage` and `PreviousPage` reset the pending
double-tap flag; `LastPage`, `Open` and unrecognized keys (`None`) leave
it as it was (the loop-exiting commands re-enter `browser` with the flag
freshly unset). A `FirstPage` press with the flag unset leaves the
session unchanged and only arms the flag; with the flag armed it jumps
to page 0. -/
theorem C1_flag_rule (env : Fs) (pdf : Pdf) (dg : Bool) :
    (∀ pdf2 dg2, browserStep env pdf dg Msg.NextPage = StepRes.cont pdf2 dg2 →
      dg2 = false) ∧
    (∀ pdf2 dg2, browserStep env pdf dg Msg.PreviousPage = StepRes.cont pdf2 dg2 →
      dg2 = false) ∧
    (∀ pdf2 dg2, browserStep env pdf dg Msg.LastPage = StepRes.cont pdf2 dg2 →
      dg2 = dg) ∧
    browserStep env pdf dg Msg.None = StepRes.cont pdf dg ∧
    browserStep env pdf dg Msg.Open = StepRes.cont pdf dg ∧
    browserStep env pdf false Msg.FirstPage = StepRes.cont pdf true ∧
    (∀ pdf2 dg2, browserStep env pdf true Msg.FirstPage = StepRes.cont pdf2 dg2 →
      pdf2.current_page = 0 ∧ dg2 = true) := by
  refine ⟨?_, ?_, ?_, rfl, rfl, rfl, ?_⟩
  · intro pdf2 dg2 h
    simp only [browserStep] at h
    split at h
    · split at h
      · cases h; rfl
      · exact StepRes.noConfusion h
    · cases h; rfl
  · intro pdf2 dg2 h
    simp only [browserStep] at h
    split at h
    · split at h
      · cases h; rfl
      · exact StepRes.noConfusion h
    · cases h; rfl
  · intro pdf2 dg2 h
    simp only [browserStep] at h
    split at h
    · cases h; rfl
    · exact StepRes.noConfusion h
  · intro pdf2 dg2 h
    simp only [browserStep] at h
    split at h
    · rename_i heq
      cases h
      exact ⟨(get_page_some_spec env _ _ 0 heq).1, rfl⟩
    · exact StepRes.noConfusion h

/-- C1 witness: applying `C1_flag_rule` at the concrete fixture, an armed
`FirstPage` lands on page 0. -/
theorem C1_flag_rule_witness : pdfA.current_page = 0 ∧ true = true :=
  (C1_flag_rule env0 pdfA true).2.2.2.2.2.2 pdfA true (by decide)

/-! ## C2 — document navigation at the list boundary -/

/-- C2 counterexample: a single document, navigated to page 2, then
`NextDocument` at the right boundary. The claim says the session is
unchanged (still page 2); the code re-opens the same document at page 0. -/
theorem C2_counterexample :
    runFinalPage (runmulti env0 { files := ["a.pdf"], current_file := 0 }
      [Msg.NextPage, Msg.NextPage, Msg.NextDocument, Msg.Quit]) = Option.some 0 ∧
    runFinalPage (runmulti env0 { files := ["a.pdf"], current_file := 0 }
      [Msg.NextPage, Msg.NextPage, Msg.NextDocument, Msg.Quit]) ≠ Option.some 2 := by
  decide

/-- C2 (amended): `NextDocument`/`PreviousDocument` never move the cursor
outside `[0, len-1]` and at either boundary the cursor does not move —
but the Coordinator still re-opens the (unchanged) current document at
page 0, so the `DocumentSession` is replaced rather than left unchanged. -/
theorem C2_boundary (env : Fs) (file : String) (files : FileList) (pdf : Pdf)
    (dg : Bool) (ms : List Msg) (d : Doc)
    (hcur : files.current_file < files.files.length) :
    files.next.current_file < files.files.length ∧
    files.prev.current_file < files.files.length ∧
    (files.current_file = files.files.length - 1 → files.next = files) ∧
    (files.current_file = 0 → files.prev = files) ∧
    (files.current_file = files.files.length - 1 →
      env files.current = Option.some d → 0 < d.pages.length →
      ∃ pdf3, runmultiGo env file files pdf dg (Msg.NextDocument :: ms) =
          runmultiGo env file files pdf3 false ms ∧
        pdf3.current_page = 0 ∧ pdf3.file = files.current) ∧
    (files.current_file = 0 →
      env files.current = Option.some d → 0 < d.pages.length →
      ∃ pdf3, runmultiGo env file files pdf dg (Msg.PreviousDocument :: ms) =
          runmultiGo env file files pdf3 false ms ∧
        pdf3.current_page = 0 ∧ pdf3.file = files.current) := by
  refine ⟨?_, ?_, ?_, ?_, ?_, ?_⟩
  · unfold FileList.next
    split
    · show files.current_file + 1 < files.files.length
      omega
    · exact hcur
  · unfold FileList.prev
    split
    · show files.current_file - 1 < files.files.length
      omega
    · exact hcur
  · intro hb
    unfold FileList.next
    exact if_neg (fun hne => hne hb)
  · intro hb
    unfold FileList.prev
    exact if_neg (fun hne => hne hb)
  · intro hb hd h0
    have hnx : files.next = files := by
      unfold FileList.next
      exact if_neg (fun hne => hne hb)
    obtain ⟨pg, hpg⟩ : ∃ pg, d.pages[(0 : Nat)]? = Option.some pg :=
      ⟨d.pages[0], List.getElem?_eq_getElem h0⟩
    have hnew := new_eq env files.current Option.none d pg hd hpg
    refine ⟨{ file := files.current, page := pg, current_page := startPage Option.none,
              length := d.pages.length, text := [] }, ?_, rfl, rfl⟩
    simp only [runmultiGo, browserStep]
    rw [hnx, hnew]
  · intro hb hd h0
    have hpv : files.prev = files := by
      unfold FileList.prev
      exact if_neg (fun hne => hne hb)
    obtain ⟨pg, hpg⟩ : ∃ pg, d.pages[(0 : Nat)]? = Option.some pg :=
      ⟨d.pages[0], List.getElem?_eq_getElem h0⟩
    have hnew := new_eq env files.current Option.none d pg hd hpg
    refine ⟨{ file := files.current, page := pg, current_page := startPage Option.none,
              length := d.pages.length, text := [] }, ?_, rfl, rfl⟩
    simp only [runmultiGo, browserStep]
    rw [hpv, hnew]

/-- C2 witness: `C2_boundary` applied to the single-document fixture at
its right boundary. -/
theorem C2_boundary_witness :
    ∃ pdf3, runmultiGo env0 "a.pdf" { files := ["a.pdf"], current_file := 0 }
        pdfA3 false (Msg.NextDocument :: [Msg.Quit]) =
        runmultiGo env0 "a.pdf" { files := ["a.pdf"], current_file := 0 }
          pdf3 false [Msg.Quit] ∧
      pdf3.current_page = 0 ∧
      pdf3.file = FileList.current { files := ["a.pdf"], current_file := 0 } :=
  (C2_boundary env0 "a.pdf" { files := ["a.pdf"], current_file := 0 } pdfA3 false
    [Msg.Quit] docA (by decide)).2.2.2.2.1 (by decide) (by decide) (by decide)

/-! ## C3 — Refresh and the reloaded page count -/

/-- C3 counterexample: a session on page 4 of a 5-page `a.pdf` whose file
on disk now holds only 2 pages. The claim says `Refresh` clamps to the
new last page (1); the code calls `Pdf::new` with start page 4, whose
`page.unwrap()` panics, so the run aborts instead of continuing on a
clamped page. -/
theorem C3_counterexample :
    runmultiGo env2 "a.pdf" { files := ["a.pdf"], current_file := 0 } pdfStale false
      [Msg.Refresh] = RunRes.panic ∧
    runFinalPage (runmultiGo env2 "a.pdf" { files := ["a.pdf"], current_file := 0 }
      pdfStale false [Msg.Refresh]) ≠ Option.some 1 := by
  decide

/-- C3 (amended): `Refresh` re-opens the document and preserves
`current_page = p` when `p` is below the reloaded page count; when the
reloaded document is shorter than `p + 1` pages there is no clamping —
the reload panics and the run aborts. -/
theorem C3_refresh (env : Fs) (file : String) (files : FileList) (pdf : Pdf)
    (dg : Bool) (ms : List Msg) (d : Doc) (hd : env file = Option.some d) :
    (pdf.current_page < d.pages.length →
      ∃ pdf3, runmultiGo env file files pdf dg (Msg.Refresh :: ms) =
          runmultiGo env file files pdf3 false ms ∧
        pdf3.current_page = pdf.current_page ∧ pdf3.length = d.pages.length) ∧
    (d.pages.length ≤ pdf.current_page →
      runmultiGo env file files pdf dg (Msg.Refresh :: ms) = RunRes.panic) := by
  constructor
  · intro hp
    obtain ⟨pg, hpg⟩ : ∃ pg, d.pages[pdf.current_page]? = Option.some pg :=
      ⟨d.pages[pdf.current_page], List.getElem?_eq_getElem hp⟩
    have hnew := new_eq env file (Option.some pdf.current_page) d pg hd hpg
    refine ⟨{ file := file, page := pg,
              current_page := startPage (Option.some pdf.current_page),
              length := d.pages.length, text := [] }, ?_, rfl, rfl⟩
    simp only [runmultiGo, browserStep]
    rw [hnew]
  · intro hp
    have hnew := new_err_range env file (Option.some pdf.current_page) d hd hp
    simp only [runmultiGo, browserStep]
    rw [hnew]

/-- C3 witness: `C3_refresh` on the in-range side, refreshing a session
on page 3 of the 5-page document. -/
theorem C3_refresh_witness :
    ∃ pdf3, runmultiGo env0 "a.pdf" { files := ["a.pdf"], current_file := 0 }
        pdfA3 false (Msg.Refresh :: []) =
        runmultiGo env0 "a.pdf" { files := ["a.pdf"], current_file := 0 }
          pdf3 false [] ∧
      pdf3.current_page = pdfA3.current_page ∧ pdf3.length = docA.pages.length :=
  (C3_refresh env0 "a.pdf" { files := ["a.pdf"], current_file := 0 } pdfA3 false
    [] docA (by decide)).1 (by decide)

/-! ## C4 — a stale Refresh is not a no-op -/

/-- C4 counterexample: two documents; `NextDocument` makes `b.pdf`
current, then a `Refresh` (necessarily stale — the watch is on `a.pdf`)
arrives. The claim says it is a no-op leaving the `b.pdf` session in
place; the code re-opens `a.pdf`, so the session after the refresh (and
the path printed at `Quit`) is `a.pdf`. -/
theorem C4_counterexample :
    runFinalFile (runmulti env0 { files := ["a.pdf", "b.pdf"], current_file := 0 }
      [Msg.NextDocument, Msg.Refresh, Msg.Quit]) = Option.some "a.pdf" ∧
    runFinalFile (runmulti env0 { files := ["a.pdf", "b.pdf"], current_file := 0 }
      [Msg.NextDocument, Msg.Refresh, Msg.Quit]) ≠ Option.some "b.pdf" := by
  decide

/-- C4 (amended): processing a `Refresh` is never a no-op on a stale
watch: whatever document is current, the Coordinator re-opens the
STARTUP path (the `file` captured before the loop) at the current
session's page index, replacing the current session — or panics if that
re-open fails. -/
theorem C4_stale_refresh (env : Fs) (file : String) (files : FileList)
    (pdf pdf3 : Pdf) (dg : Bool) (ms : List Msg)
    (hnew : Pdf.new env file (Option.some pdf.current_page) = Except.ok pdf3) :
    runmultiGo env file files pdf dg (Msg.Refresh :: ms) =
      runmultiGo env file files pdf3 false ms ∧
    pdf3.file = file ∧ pdf3.current_page = pdf.current_page := by
  refine ⟨?_, (new_ok_spec env file _ pdf3 hnew).1,
    (new_ok_spec env file _ pdf3 hnew).2⟩
  simp only [runmultiGo, browserStep]
  rw [hnew]

/-- Session on `b.pdf` at page 0, as opened after one `NextDocument`. -/
def pdfB0 : Pdf :=
  { file := "b.pdf", page := pgP, current_page := 0, length := 3, text := [] }

/-- C4 witness: `C4_stale_refresh` with `b.pdf` current and the startup
path `a.pdf`; the refresh re-opens `a.pdf`. -/
theorem C4_stale_refresh_witness :
    runmultiGo env0 "a.pdf" { files := ["a.pdf", "b.pdf"], current_file := 1 }
        pdfB0 false (Msg.Refresh :: [Msg.Quit]) =
      runmultiGo env0 "a.pdf" { files := ["a.pdf", "b.pdf"], current_file := 1 }
        pdfA false [Msg.Quit] ∧
    pdfA.file = "a.pdf" ∧ pdfA.current_page = pdfB0.current_page :=
  C4_stale_refresh env0 "a.pdf" { files := ["a.pdf", "b.pdf"], current_file := 1 }
    pdfB0 pdfA false [Msg.Quit] (by rfl)

/-! ## C5 — page navigation bounds -/

/-- C5: from `current_page = n`, `NextPage` with `n + 1 < page_count`
moves to `n + 1` and resets the double-tap flag; at the last page it is a
no-op on the session. `PreviousPage` with `n > 0` moves to `n - 1`; at
page 0 it is a no-op. (`hlen` says the session's recorded length matches
the document the rasterizer re-loads, so the render succeeds.) -/
theorem C5_page_nav (env : Fs) (pdf : Pdf) (dg : Bool) (d : Doc)
    (hd : env pdf.file = Option.some d) (hlen : pdf.length = d.pages.length) :
    (pdf.current_page + 1 < pdf.length →
      ∃ pdf2, browserStep env pdf dg Msg.NextPage = StepRes.cont pdf2 false ∧
        pdf2.current_page = pdf.current_page + 1) ∧
    (pdf.current_page = pdf.length - 1 →
      browserStep env pdf dg Msg.NextPage = StepRes.cont pdf false) ∧
    (0 < pdf.current_page → pdf.current_page < pdf.length →
      ∃ pdf2, browserStep env pdf dg Msg.PreviousPage = StepRes.cont pdf2 false ∧
        pdf2.current_page = pdf.current_page - 1) ∧
    (pdf.current_page = 0 →
      browserStep env pdf dg Msg.PreviousPage = StepRes.cont pdf false) := by
  refine ⟨?_, ?_, ?_, ?_⟩
  · intro h
    obtain ⟨pg, hpg⟩ : ∃ pg, d.pages[pdf.current_page + 1]? = Option.some pg :=
      ⟨_, List.getElem?_eq_getElem (by omega)⟩
    have hgp := get_page_eq env { pdf with current_page := pdf.current_page + 1 }
      (pdf.current_page + 1) d pg hd hpg
    refine ⟨{ pdf with page := pg, current_page := pdf.current_page + 1 }, ?_, rfl⟩
    simp only [browserStep]
    split
    · rw [hgp]
    · exfalso
      omega
  · intro h
    simp only [browserStep]
    split
    · exfalso
      omega
    · rfl
  · intro h0 h
    obtain ⟨pg, hpg⟩ : ∃ pg, d.pages[pdf.current_page - 1]? = Option.some pg :=
      ⟨_, List.getElem?_eq_getElem (by omega)⟩
    have hgp := get_page_eq env { pdf with current_page := pdf.current_page - 1 }
      (pdf.current_page - 1) d pg hd hpg
    refine ⟨{ pdf with page := pg, current_page := pdf.current_page - 1 }, ?_, rfl⟩
    simp only [browserStep]
    split
    · rw [hgp]
    · exfalso
      omega
  · intro h
    simp only [browserStep]
    split
    · exfalso
      omega
    · rfl

/-- C5 witness: `C5_page_nav` on the fixture, one `NextPage` from page 0
of the 5-page document lands on page 1. -/
theorem C5_page_nav_witness :
    ∃ pdf2, browserStep env0 pdfA false Msg.NextPage = StepRes.cont pdf2 false ∧
      pdf2.current_page = pdfA.current_page + 1 :=
  (C5_page_nav env0 pdfA false docA (by decide) (by decide)).1 (by decide)

/-! ## C6 — display sizing branch -/

/-- C6 counterexample: a 1:2 portrait page (100×200 px) on a 2:1
landscape terminal (80×40 cells) is sized by HEIGHT `rows - 2 = 38` —
the claim (quoting §8) additionally asserts this case is sized by width,
which is false. -/
theorem C6_counterexample :
    Page.display { data := [], size := (100, 200) } 80 40 Option.none =
      Option.some (SizeChoice.byHeight 38) ∧
    Page.display { data := [], size := (100, 200) } 80 40 Option.none ≠
      Option.some (SizeChoice.byWidth 78) := by
  decide

/-- C6 (amended): the image is sized by height `rows - 2` exactly when
the page is portrait (`width / height < 1`, integer division) and the
terminal is landscape (`cols / rows ≥ 1`), and by width `cols - 2` in
every other case; in particular the portrait-page-on-landscape-terminal
case (1:2 page, 2:1 terminal) is the height case, contrary to §8. -/
theorem C6_display_rule (pg : Page) (cols rows : Nat)
    (hh : 0 < pg.size.2) (hr : 0 < rows) :
    (pg.size.1 / pg.size.2 < 1 → 1 ≤ cols / rows →
      pg.display cols rows Option.none =
        Option.some (SizeChoice.byHeight (rows - 2))) ∧
    (¬ (pg.size.1 / pg.size.2 < 1 ∧ 1 ≤ cols / rows) →
      pg.display cols rows Option.none =
        Option.some (SizeChoice.byWidth (cols - 2))) := by
  constructor
  · intro h1 h2
    have e1 : decide (pg.size.1 / pg.size.2 ≥ 1) = false := by
      simp only [decide_eq_false_iff_not]
      omega
    have e2 : decide (cols / rows ≥ 1) = true := by
      simp only [decide_eq_true_eq]
      omega
    unfold Page.display
    rw [if_neg (by omega : ¬(pg.size.2 = 0 ∨ rows = 0))]
    simp [e1, e2]
  · intro h
    unfold Page.display
    rw [if_neg (by omega : ¬(pg.size.2 = 0 ∨ rows = 0))]
    by_cases hA : pg.size.1 / pg.size.2 ≥ 1
    · have e1 : decide (pg.size.1 / pg.size.2 ≥ 1) = true := by
        simp only [decide_eq_true_eq]
        omega
      simp [e1]
    · have hB : ¬ (1 ≤ cols / rows) := fun hb => h ⟨by omega, hb⟩
      have e1 : decide (pg.size.1 / pg.size.2 ≥ 1) = false := by
        simp only [decide_eq_false_iff_not]
        omega
      have e2 : decide (cols / rows ≥ 1) = false := by
        simp only [decide_eq_false_iff_not]
        omega
      simp [e1, e2]

/-- C6 witness: `C6_display_rule` on a portrait page with a portrait
terminal (40×80 cells): the other branch, sized by width. -/
theorem C6_display_rule_witness :
    Page.display { data := [], size := (100, 200) } 40 80 Option.none =
      Option.some (SizeChoice.byWidth 38) :=
  (C6_display_rule { data := [], size := (100, 200) } 40 80
    (by decide) (by decide)).2 (by decide)

/-! ## C7 — failures inside the loop are not contained -/

/-- C7 counterexample: `a.pdf` becomes unreadable, then a `Refresh`
arrives. The claim says the loop continues with the previous session
still displayed (so the subsequent `Quit` would exit cleanly printing
`a.pdf`); the code panics in `.expect("Couldn't refresh file")` and the
run aborts. -/
theorem C7_counterexample :
    runmultiGo envGone "a.pdf" { files := ["a.pdf"], current_file := 0 } pdfA false
      [Msg.Refresh, Msg.Quit] = RunRes.panic ∧
    runFinalFile (runmultiGo envGone "a.pdf" { files := ["a.pdf"], current_file := 0 }
      pdfA false [Msg.Refresh, Msg.Quit]) ≠ Option.some "a.pdf" := by
  decide

/-- C7 (amended): a failed render (`get_page` cannot re-load the file)
or a failed reload (`Pdf::new` fails on `Refresh`) during the interactive
loop panics and aborts the run; the previous session is NOT retained. -/
theorem C7_failure_panics (env : Fs) (file : String) (files : FileList)
    (pdf : Pdf) (dg : Bool) (ms : List Msg) (e : PdfErr) :
    (env pdf.file = Option.none → pdf.current_page ≠ pdf.length - 1 →
      browserStep env pdf dg Msg.NextPage = StepRes.panic) ∧
    (env pdf.file = Option.none → pdf.current_page ≠ pdf.length - 1 →
      runmultiGo env file files pdf dg (Msg.NextPage :: ms) = RunRes.panic) ∧
    (Pdf.new env file (Option.some pdf.current_page) = Except.error e →
      runmultiGo env file files pdf dg (Msg.Refresh :: ms) = RunRes.panic) := by
  have hstep : env pdf.file = Option.none → pdf.current_page ≠ pdf.length - 1 →
      browserStep env pdf dg Msg.NextPage = StepRes.panic := by
    intro h hne
    simp only [browserStep]
    rw [if_pos hne, get_page_none_load env
      { pdf with current_page := pdf.current_page + 1 } (pdf.current_page + 1) h]
  refine ⟨hstep, ?_, ?_⟩
  · intro h hne
    simp only [runmultiGo]
    rw [hstep h hne]
  · intro hnew
    simp only [runmultiGo, browserStep]
    rw [hnew]

/-- C7 witness: `C7_failure_panics` with the file deleted and a pending
`Refresh`: the run panics. -/
theorem C7_failure_panics_witness :
    runmultiGo envGone "a.pdf" { files := ["a.pdf"], current_file := 0 } pdfA3 false
      (Msg.Refresh :: []) = RunRes.panic :=
  (C7_failure_panics envGone "a.pdf" { files := ["a.pdf"], current_file := 0 }
    pdfA3 false [] PdfErr.loadErr).2.2 (by rfl)

/-! ## C8 — Quit exits cleanly printing the current path -/

/-- C8: processing `Quit` ends the run with `Ok`: exit code 0, and the
path printed to stdout is the `file` of the session current at that
moment. -/
theorem C8_quit (env : Fs) (file : String) (files : FileList) (pdf : Pdf)
    (dg : Bool) (ms : List Msg) :
    runmultiGo env file files pdf dg (Msg.Quit :: ms) = RunRes.ok pdf ∧
    (runmultiGo env file files pdf dg (Msg.Quit :: ms)).exitCode = 0 ∧
    (runmultiGo env file files pdf dg (Msg.Quit :: ms)).printed =
      Option.some pdf.file :=
  ⟨rfl, rfl, rfl⟩

/-! ## C9 — the armed flag survives the jump -/

/-- C9: with the double-tap flag armed, `FirstPage` jumps to page 0 and
leaves the flag armed; the very same step applied again (a further
`FirstPage` with no intervening command) immediately jumps again — the
session is a fixed point, still at page 0 with the flag armed. -/
theorem C9_armed_flag_persists (env : Fs) (pdf : Pdf) (d : Doc) (pg : Page)
    (hd : env pdf.file = Option.some d)
    (hpg : d.pages[(0 : Nat)]? = Option.some pg) :
    ∃ pdf2, browserStep env pdf true Msg.FirstPage = StepRes.cont pdf2 true ∧
      pdf2.current_page = 0 ∧
      browserStep env pdf2 true Msg.FirstPage = StepRes.cont pdf2 true := by
  refine ⟨{ pdf with page := pg, current_page := 0 }, ?_, rfl, ?_⟩
  · simp [browserStep, Pdf.get_page, hd, hpg]
  · simp [browserStep, Pdf.get_page, hd, hpg]

/-- C9 witness: `C9_armed_flag_persists` on the fixture session at
page 3. -/
theorem C9_armed_flag_persists_witness :
    ∃ pdf2, browserStep env0 pdfA3 true Msg.FirstPage = StepRes.cont pdf2 true ∧
      pdf2.current_page = 0 ∧
      browserStep env0 pdf2 true Msg.FirstPage = StepRes.cont pdf2 true :=
  C9_armed_flag_persists env0 pdfA3 docA pgP (by decide) (by decide)

/-! ## C10 — the watch is armed once, on the startup path -/

/-- C10: the watcher is armed exactly once, on the startup current path
(`runSystem` translates events with that fixed watched path): a
filesystem change on any other path — in particular the current document
after a switch — produces no `Refresh` command, a change on the
initially-watched path still appends one, and processing a `Refresh`
re-opens the initially-watched startup path (not the current document). -/
theorem C10_watch_startup_only (env : Fs) (files fl : FileList)
    (evs : List Event) (p : String) (pdf pdf3 : Pdf) (dg : Bool) (ms : List Msg)
    (hp : p ≠ files.current)
    (hnew : Pdf.new env files.current (Option.some pdf.current_page) =
      Except.ok pdf3) :
    runSystem env files evs = runmulti env files (msgsOfEvents files.current evs) ∧
    msgsOfEvents files.current (evs ++ [Event.fsChange p]) =
      msgsOfEvents files.current evs ∧
    msgsOfEvents files.current (evs ++ [Event.fsChange files.current]) =
      msgsOfEvents files.current evs ++ [Msg.Refresh] ∧
    runmultiGo env files.current fl pdf dg (Msg.Refresh :: ms) =
      runmultiGo env files.current fl pdf3 false ms ∧
    pdf3.file = files.current := by
  refine ⟨rfl, ?_, ?_, ?_, (new_ok_spec env files.current _ pdf3 hnew).1⟩
  · unfold msgsOfEvents
    rw [List.filterMap_append]
    simp [watchEmit, hp]
  · unfold msgsOfEvents
    rw [List.filterMap_append]
    simp [watchEmit]
  · simp only [runmultiGo, browserStep]
    rw [hnew]

/-- C10 witness: two documents, watch armed on `a.pdf`; after a
`NextDocument` key, a change to `b.pdf` adds no command, and the stale
`Refresh` path re-opens `a.pdf`. -/
theorem C10_watch_startup_only_witness :
    msgsOfEvents (FileList.current { files := ["a.pdf", "b.pdf"], current_file := 0 })
        ([Event.key Msg.NextDocument] ++ [Event.fsChange "b.pdf"]) =
      msgsOfEvents (FileList.current { files := ["a.pdf", "b.pdf"], current_file := 0 })
        [Event.key Msg.NextDocument] ∧
    pdfA.file = FileList.current { files := ["a.pdf", "b.pdf"], current_file := 0 } :=
  ⟨(C10_watch_startup_only env0 { files := ["a.pdf", "b.pdf"], current_file := 0 }
      { files := ["a.pdf", "b.pdf"], current_file := 1 }
      [Event.key Msg.NextDocument] "b.pdf" pdfB0 pdfA false []
      (by decide) (by rfl)).2.1,
   (C10_watch_startup_only env0 { files := ["a.pdf", "b.pdf"], current_file := 0 }
      { files := ["a.pdf", "b.pdf"], current_file := 1 }
      [Event.key Msg.NextDocument] "b.pdf" pdfB0 pdfA false []
      (by decide) (by rfl)).2.2.2.2⟩

end Termpdf
